import Mathlib

/-
Verification development for the question-answering orchestration of the
RAG-ChatBot repository (src/main.py): the compound-question splitter
split_question_into_parts, the response normalizer
enhance_response_authority, and the chat orchestrator.

Python strings are modelled as lists of characters (PyStr).  The helpers
pyLower, pyStrip, pyContains, pyReplace, pyReplaceFirst and pySplit model
str.lower, str.strip, the membership operator, str.replace, str.replace
with count 1, and str.split with a separator.  Every pattern used by the
source at these call sites is non-empty, which is the regime in which the
models below agree with Python; the empty-pattern special cases of Python
are never exercised.
-/

set_option maxRecDepth 4000

namespace RAGChatBot

/-- Python strings, modelled as lists of characters. -/
abbrev PyStr := List Char

/-- ASCII apostrophe, used to build the string constants of the source that
contain one. -/
def SQ : Char := Char.ofNat 39

/-- Model of str.lower; the source only lowercases ASCII text, where
Char.toLower agrees with Python. -/
def pyLower (s : PyStr) : PyStr := s.map Char.toLower

/-- Model of str.strip with no argument: remove leading and trailing
whitespace. -/
def pyStrip (s : PyStr) : PyStr :=
  ((s.dropWhile Char.isWhitespace).reverse.dropWhile Char.isWhitespace).reverse

/-- Model of the Python membership test, pat occurring somewhere in s. -/
def pyContains : PyStr → PyStr → Bool
  | [], pat => pat.isEmpty
  | c :: cs, pat => pat.isPrefixOf (c :: cs) || pyContains cs pat

/-- Worker for pySplit.  The fuel argument makes the recursion structural;
pySplit passes the length of the string, which the scan never exhausts
because every step consumes at least one character of a non-empty string. -/
def pySplitAux (pat : PyStr) : Nat → PyStr → List PyStr
  | _, [] => [[]]
  | 0, s => [s]
  | fuel + 1, c :: cs =>
    if !pat.isEmpty && pat.isPrefixOf (c :: cs) then
      [] :: pySplitAux pat fuel ((c :: cs).drop pat.length)
    else
      match pySplitAux pat fuel cs with
      | [] => [[c]]
      | f :: rest => (c :: f) :: rest

/-- Model of str.split with a separator: split on the non-overlapping
occurrences of the separator, scanning left to right, keeping empty
fragments, as Python does. -/
def pySplit (pat s : PyStr) : List PyStr := pySplitAux pat s.length s

/-- Model of str.replace with no count: replace every occurrence.  For a
non-empty pattern, Python replacement is exactly separator-split followed
by a join on the replacement. -/
def pyReplace (s pat rep : PyStr) : PyStr := List.intercalate rep (pySplit pat s)

/-- Model of str.replace with count 1: replace the first occurrence only. -/
def pyReplaceFirst : PyStr → PyStr → PyStr → PyStr
  | [], pat, rep => if pat.isPrefixOf ([] : PyStr) then rep ++ List.drop pat.length [] else []
  | c :: cs, pat, rep =>
    if pat.isPrefixOf (c :: cs) then rep ++ (c :: cs).drop pat.length
    else c :: pyReplaceFirst cs pat rep

/-- Domain keyword detection inside the fallback branch of
split_question_into_parts (src/main.py lines 145-151): scan the first
fragment, case-insensitively, for tiling, then repair, then excavation.
The result keeps the trailing space the source gives base_context. -/
def detect_context (p0 : PyStr) : PyStr :=
  if pyContains (pyLower p0) ("tiling".data) then "tiling ".data
  else if pyContains (pyLower p0) ("repair".data) then "repair ".data
  else if pyContains (pyLower p0) ("excavation".data) then "excavation ".data
  else []

/-- Textual repair applied to every fragment after the first inside the
fallback branch of split_question_into_parts (src/main.py lines 157-168). -/
def repair_part (base : PyStr) (part : PyStr) : PyStr :=
  let p := pyStrip part
  if base ≠ [] ∧ pyContains (pyLower p) (pyStrip base) = false then
    if ("how to".data).isPrefixOf p then
      pyReplaceFirst p ("how to".data) ("how to ".data ++ base)
    else if ("what".data).isPrefixOf p then
      if pyContains p ("convert".data) then
        pyReplace p ("convert it to".data) ("convert ".data ++ base ++ "lead to".data)
      else p
    else if ("which".data).isPrefixOf p then
      if pyContains p ("can do".data) then
        pyReplace p ("this steps".data) ("the ".data ++ base ++ "lead steps".data)
      else p
    else p
  else p

/-- Fallback branch of split_question_into_parts (src/main.py lines
143-170): one sub-question per literal " and " fragment; the first
fragment is only stripped, the later fragments receive the domain-keyword
repair driven by the first fragment. -/
def fallback_split : List PyStr → List PyStr
  | [] => []
  | p0 :: rest => pyStrip p0 :: rest.map (repair_part (detect_context p0))

/-- Body of split_question_into_parts (src/main.py lines 119-172) after the
model call; result is the list the model-based chain produced.  When that
list is empty or a single item, the question is split on the literal
" and "; when that split has more than one fragment the repaired fragment
sequence is returned, otherwise the model result is returned as it is. -/
def split_question_into_parts (question : PyStr) (result : List PyStr) : List PyStr :=
  if result = [] ∨ result.length = 1 then
    let parts := pySplit (" and ".data) question
    if 1 < parts.length then fallback_split parts else result
  else result

/-- The phrase that signals missing information, with the apostrophe the
source writes (src/main.py line 177). -/
def dont_have_information : PyStr :=
  "don".data ++ [SQ] ++ "t have information".data

/-- Guard of the verbatim short-circuit of enhance_response_authority
(src/main.py line 177). -/
def short_circuit (response : PyStr) : Bool :=
  pyContains (pyLower response) ("cannot answer".data) ||
  pyContains (pyLower response) ("not available".data) ||
  pyContains (pyLower response) dont_have_information

/-- Catalog of formal lead-in phrases stripped by
enhance_response_authority (src/main.py lines 181-194). -/
def formal_phrases : List PyStr := List.map String.data
  [ "According to the documentation, ",
    "This is explicitly stated in the documentation. ",
    "The system documentation specifies that ",
    "As documented in the system, ",
    "The documentation indicates ",
    "As outlined in the documentation, ",
    "The official procedure is: ",
    "Documented steps are: ",
    "System requirements include: ",
    "These are the documented requirements",
    "This process is fully documented",
    "This information is documented in the official system documentation." ]

/-- Replacement text of the rewrite of cannot be added (src/main.py line
207), with the apostrophe the source writes. -/
def cant_be_used_in : PyStr := "can".data ++ [SQ] ++ "t be used in".data

/-- Catalog of verbose transition phrases removed by
enhance_response_authority (src/main.py lines 219-223). -/
def verbose_phrases : List PyStr := List.map String.data
  [ "you need to follow these steps:",
    "the process is as follows:",
    "the way to do this is:" ]

/-- Filler acknowledgement phrases whose lines are dropped by
enhance_response_authority (src/main.py lines 233-235), built with the
apostrophes the source writes. -/
def skip_phrases : List PyStr :=
  [ "that".data ++ [SQ] ++ "s it!".data,
    "you".data ++ [SQ] ++ "ve successfully".data,
    "once you".data ++ [SQ] ++ "ve filled".data ]

/-- Fallback sentence returned when the cleanup empties the response
(src/main.py line 241). -/
def fallback_answer : PyStr :=
  "I can help you with that based on the system documentation.".data

/-- Recognized natural openers checked before prepending a prefix phrase
(src/main.py lines 243-245). -/
def starters : List PyStr := List.map String.data
  [ "to", "you", "here", "first", "steps", "simply", "just", "when", "if",
    "1.", "yes", "no", "there are", "the system" ]

/-- Action verbs looked for in the first 30 lowered characters (src/main.py
line 246). -/
def action_words : List PyStr := List.map String.data
  [ "click", "press", "go to", "navigate" ]

/-- Equipment words looked for in the first 20 lowered characters
(src/main.py line 250). -/
def equip_words : List PyStr := List.map String.data
  [ "machine", "vehicle", "trailer", "equipment" ]

/-- Opener phrase prepended before action-verb responses (src/main.py line
247). -/
def to_do_this_opener : PyStr := "To do this: ".data

/-- Opener phrase prepended before numbered-list responses (src/main.py
line 249). -/
def steps_opener : PyStr := "Steps:\n".data

/-- Opener phrase prepended before equipment responses (src/main.py line
251), built with the apostrophe the source writes. -/
def heres_how_opener : PyStr :=
  "Here".data ++ [SQ] ++ "s how equipment works: ".data

/-- Cleanup pipeline of enhance_response_authority between the
short-circuit and the emptiness check (src/main.py lines 181-238): strip
the formal phrases, remove markdown bold and bullet markers, apply the tone
substitutions, trim, remove the verbose transition phrases, and drop the
filler lines.  The membership tests of src/main.py lines 214-217 guard
only pass statements and have no effect, so they are not modelled. -/
def normalize_pipeline (response : PyStr) : PyStr :=
  let r := formal_phrases.foldl (fun acc p => pyReplace acc p []) response
  let r := pyReplace r ("**".data) []
  let r := pyReplace r ("- ".data) []
  let r := pyReplace r ("* ".data) []
  let r := pyReplace r ("The system requires".data) ("You need to".data)
  let r := pyReplace r ("The documentation specifies".data) []
  let r := pyReplace r ("official system procedures".data) ("steps".data)
  let r := pyReplace r ("documented procedures".data) ("steps".data)
  let r := pyReplace r ("cannot be added".data) cant_be_used_in
  let r := pyReplace r ("can only be added".data) ("can only be used in".data)
  let r := pyStrip r
  let r := verbose_phrases.foldl (fun acc p => pyReplace acc p []) r
  let lines := pySplit (['\n']) r
  let cleaned := (lines.map pyStrip).filter
    (fun l => !l.isEmpty && !(skip_phrases.any (fun sp => pyContains (pyLower l) sp)))
  List.intercalate (['\n']) cleaned

/-- Final stage of enhance_response_authority (src/main.py lines 243-251):
when the response does not begin with a recognized opener, prepend at most
one of the three opener phrases, checked in priority order. -/
def add_opener (r : PyStr) : PyStr :=
  if !(starters.any (fun st => st.isPrefixOf (pyLower r))) then
    if action_words.any (fun w => pyContains ((pyLower r).take 30) w) then
      to_do_this_opener ++ r
    else if ("1.".data).isPrefixOf (pyLower r) then
      steps_opener ++ r
    else if equip_words.any (fun w => pyContains ((pyLower r).take 20) w) then
      heres_how_opener ++ r
    else r
  else r

/-- Model of enhance_response_authority (src/main.py lines 174-253). -/
def enhance_response_authority (response : PyStr) : PyStr :=
  if short_circuit response then response
  else
    let r := normalize_pipeline response
    if r = [] then fallback_answer else add_opener r

/-- Error outcomes of the chat orchestrator that are visible to its
caller. -/
inductive ChatError where
  | configMissingStore : ChatError
  | synthesisFailed : ChatError
deriving DecidableEq

/-- Decomposition step of chat (src/main.py lines 267-271).  The model call
happens inside split_question_into_parts, so a raised exception reaches the
try/except of chat before any fallback logic of the splitter runs; the
handler then answers the whole original question as the sole
sub-question. -/
def chat_sub_questions (question : PyStr) (model : Except Unit (List PyStr)) : List PyStr :=
  match model with
  | Except.ok result => split_question_into_parts question result
  | Except.error _ => [question]

/-- Answer loop of chat (src/main.py lines 273-277): each sub-question is
sent, in order, to the retrieval-plus-synthesis round trip synth and the
raw answer is normalized; a synthesis failure aborts the remaining
sub-questions, as the unguarded chain.invoke of the source does. -/
def answer_loop (synth : PyStr → Except Unit PyStr) :
    List PyStr → Except ChatError (List (PyStr × PyStr))
  | [] => Except.ok []
  | q :: qs =>
    match synth q with
    | Except.error _ => Except.error ChatError.synthesisFailed
    | Except.ok a =>
      match answer_loop synth qs with
      | Except.error e => Except.error e
      | Except.ok rest => Except.ok ((q, enhance_response_authority a) :: rest)

/-- Model of chat (src/main.py lines 256-277).  storeExists models
PERSIST_DIR.exists(); model is the outcome of the model-based splitting
call; synth models the retrieval-plus-synthesis round trip of chain.invoke
for one sub-question, which may itself fail.  Every answer passes through
enhance_response_authority, and the returned list holds the pairs of
sub-question and final answer in order. -/
def chat (storeExists : Bool) (question : PyStr)
    (model : Except Unit (List PyStr)) (synth : PyStr → Except Unit PyStr) :
    Except ChatError (List (PyStr × PyStr)) :=
  if storeExists then answer_loop synth (chat_sub_questions question model)
  else Except.error ChatError.configMissingStore

/-- Helper: pyReplaceFirst on a string the pattern opens replaces exactly
that leading occurrence. -/
theorem pyReplaceFirst_eq_of_isPrefixOf (s pat rep : PyStr)
    (h : pat.isPrefixOf s = true) :
    pyReplaceFirst s pat rep = rep ++ s.drop pat.length := by
  cases s with
  | nil => simp [pyReplaceFirst, h]
  | cons c cs => simp [pyReplaceFirst, h]

/-- Helper: lowering both strings preserves the starts-with relation. -/
theorem pyLower_isPrefixOf {p r : PyStr} (h : p.isPrefixOf r = true) :
    (pyLower p).isPrefixOf (pyLower r) = true := by
  simp only [pyLower, List.isPrefixOf_iff_prefix] at h ⊢
  exact h.map Char.toLower

/-- Helper: add_opener keeps any string unchanged when some starter of the
catalog opens its lowering. -/
theorem add_opener_eq_of_starter {r st : PyStr} (hmem : st ∈ starters)
    (h : st.isPrefixOf (pyLower r) = true) : add_opener r = r := by
  have hany : starters.any (fun s => s.isPrefixOf (pyLower r)) = true :=
    List.any_eq_true.mpr ⟨st, hmem, h⟩
  simp [add_opener, hany]

/-- Helper: add_opener keeps any string unchanged that starts with a phrase
whose lowering some starter of the catalog opens. -/
theorem add_opener_eq_of_starter_lift (st p r : PyStr) (hmem : st ∈ starters)
    (h1 : st.isPrefixOf (pyLower p) = true) (hpre : p.isPrefixOf r = true) :
    add_opener r = r := by
  apply add_opener_eq_of_starter hmem
  rw [List.isPrefixOf_iff_prefix] at h1 ⊢
  exact h1.trans (List.isPrefixOf_iff_prefix.mp (pyLower_isPrefixOf hpre))

/-- Helper: add_opener never empties a non-empty string, since every branch
returns the input or the input behind a prepended phrase. -/
theorem add_opener_ne_nil {r : PyStr} (h : r ≠ []) : add_opener r ≠ [] := by
  unfold add_opener
  split_ifs <;>
    first
      | exact h
      | (intro hh
         rcases List.append_eq_nil.mp hh with ⟨h1, h2⟩
         exact h h2)

/-- Helper: a response accepted by the short-circuit guard contains one of
three non-empty phrases and is therefore non-empty. -/
theorem ne_nil_of_short_circuit {s : PyStr} (h : short_circuit s = true) :
    s ≠ [] := by
  rintro rfl
  exact absurd h (by decide)

/-- Helper: enhance_response_authority returns a short-circuited response
verbatim. -/
theorem enhance_eq_of_short_circuit {s : PyStr} (h : short_circuit s = true) :
    enhance_response_authority s = s := by
  simp [enhance_response_authority, h]

/-- Helper: enhance_response_authority never returns the empty string. -/
theorem enhance_ne_nil (s : PyStr) : enhance_response_authority s ≠ [] := by
  unfold enhance_response_authority
  by_cases h1 : short_circuit s
  · simpa [h1] using ne_nil_of_short_circuit h1
  · simp only [h1, if_false, Bool.false_eq_true]
    by_cases h2 : normalize_pipeline s = []
    · simp only [h2, if_true]
      decide
    · simp only [h2, if_false]
      exact add_opener_ne_nil h2

/-- C4: enhance_response_authority is total and its result is non-empty for
every input string, including the empty string, whose cleanup empties the
response and yields the fixed fallback sentence. -/
theorem c4_normalize_total_nonempty (s : PyStr) :
    enhance_response_authority s ≠ [] ∧
    enhance_response_authority ([] : PyStr) = fallback_answer :=
  ⟨enhance_ne_nil s, by decide⟩

/-- C3 counterexample: an input that triggers the short-circuit is returned
verbatim, so the output of enhance_response_authority can contain the
markdown bold marker, refuting the claimed invariant, which quantifies over
all inputs including the short-circuited ones. -/
theorem c3_counterexample :
    pyContains (enhance_response_authority ("not available **".data)) ("**".data) = true := by
  decide

/-- C3 (amended): every result of enhance_response_authority is non-empty;
freedom from the boilerplate phrases and the markdown markers is not an
invariant, because an input that triggers the short-circuit is returned
verbatim, markers included. -/
theorem c3_amended (s : PyStr) :
    enhance_response_authority s ≠ [] ∧
    (short_circuit s = true → enhance_response_authority s = s) :=
  ⟨enhance_ne_nil s, fun h => enhance_eq_of_short_circuit h⟩

/-- C3 witness: the amended theorem applied at a concrete short-circuited
input containing a bullet marker. -/
theorem c3_amended_witness :
    enhance_response_authority ("not available - x".data) = ("not available - x".data) :=
  (c3_amended ("not available - x".data)).2 (by decide)

/-- C5: an input containing, case-insensitively, one of the phrases
cannot answer, not available, or the dont-have-information phrase is
returned verbatim by enhance_response_authority, with no rewrite rule
applied. -/
theorem c5_short_circuit_verbatim (s : PyStr)
    (h : pyContains (pyLower s) ("cannot answer".data) = true ∨
         pyContains (pyLower s) ("not available".data) = true ∨
         pyContains (pyLower s) dont_have_information = true) :
    enhance_response_authority s = s := by
  apply enhance_eq_of_short_circuit
  rcases h with h | h | h <;> simp [short_circuit, h]

/-- C5 witness: the theorem applied at an upper-case concrete input, whose
hypothesis is discharged by evaluation. -/
theorem c5_short_circuit_verbatim_witness :
    enhance_response_authority ("Sorry, this is NOT AVAILABLE.".data) =
      ("Sorry, this is NOT AVAILABLE.".data) :=
  c5_short_circuit_verbatim ("Sorry, this is NOT AVAILABLE.".data)
    (Or.inr (Or.inl (by decide)))

/-- Helper: on a degenerate model result, split_question_into_parts reduces
to the literal " and " branch. -/
theorem split_question_into_parts_degenerate (q : PyStr) (res : List PyStr)
    (hres : res = [] ∨ res.length = 1) :
    split_question_into_parts q res =
      (if 1 < (pySplit (" and ".data) q).length
       then fallback_split (pySplit (" and ".data) q) else res) := by
  unfold split_question_into_parts
  rw [if_pos hres]

/-- C1 counterexample: with an empty model result and a question without
the separator, split_question_into_parts returns the empty model result,
not the single original question, refuting both the non-emptiness and the
claimed identity fallback. -/
theorem c1_counterexample :
    split_question_into_parts ("hello".data) [] = [] ∧
    split_question_into_parts ("hello".data) [] ≠ [("hello".data)] := by
  decide

/-- C1 (amended): when the model result is degenerate, empty or a single
item, split_question_into_parts falls back to the literal " and " split
exactly when that split has more than one fragment, and then returns one
sub-question per fragment, a non-empty sequence; when the split has at most
one fragment, the degenerate model result is returned as it is, possibly
empty or a single model item, not the original question. -/
theorem c1_amended (q : PyStr) (res : List PyStr) (hres : res.length ≤ 1) :
    ((pySplit (" and ".data) q).length ≤ 1 → split_question_into_parts q res = res) ∧
    (1 < (pySplit (" and ".data) q).length →
      (split_question_into_parts q res).length = (pySplit (" and ".data) q).length ∧
      split_question_into_parts q res ≠ []) := by
  have hcond : res = [] ∨ res.length = 1 := by
    rcases Nat.le_one_iff_eq_zero_or_eq_one.mp hres with h | h
    · exact Or.inl (List.length_eq_zero.mp h)
    · exact Or.inr h
  rw [split_question_into_parts_degenerate q res hcond]
  constructor
  · intro hle
    rw [if_neg (by omega)]
  · intro hgt
    rw [if_pos hgt]
    cases hp : pySplit (" and ".data) q with
    | nil => rw [hp] at hgt; simp at hgt
    | cons p0 rest =>
      constructor
      · simp [fallback_split]
      · simp [fallback_split]

/-- C1 witness: the amended theorem applied at a separator-bearing question
with an empty model result. -/
theorem c1_amended_witness :
    (split_question_into_parts ("a and b".data) []).length =
      (pySplit (" and ".data) ("a and b".data)).length ∧
    split_question_into_parts ("a and b".data) [] ≠ [] :=
  (c1_amended ("a and b".data) [] (by decide)).2 (by decide)

/-- C2 counterexample: when the model call errors on a question containing
the separator, chat falls back to the whole original question, not to the
" and "-split sub-question sequence, refuting the claim that all three
degenerate cases trigger the literal split. -/
theorem c2_counterexample :
    chat_sub_questions ("a and b".data) (Except.error ()) = [("a and b".data)] ∧
    chat_sub_questions ("a and b".data) (Except.error ()) ≠ [("a".data), ("b".data)] := by
  decide

/-- C2 (amended): the literal " and " fallback is triggered by an empty or
a single-item model result; a model-call error instead propagates out of
the splitter, and the chat handler answers the whole original question as
the sole sub-question rather than the " and " split. -/
theorem c2_amended (q : PyStr) (res : List PyStr)
    (hres : res = [] ∨ res.length = 1)
    (hgt : 1 < (pySplit (" and ".data) q).length) :
    chat_sub_questions q (Except.error ()) = [q] ∧
    (chat_sub_questions q (Except.ok res)).length = (pySplit (" and ".data) q).length ∧
    (chat_sub_questions q (Except.ok res)).head? =
      ((pySplit (" and ".data) q).head?).map pyStrip := by
  have hok : chat_sub_questions q (Except.ok res) =
      fallback_split (pySplit (" and ".data) q) := by
    show split_question_into_parts q res = _
    rw [split_question_into_parts_degenerate q res hres, if_pos hgt]
  refine ⟨rfl, ?_, ?_⟩ <;> rw [hok]
  · cases hp : pySplit (" and ".data) q with
    | nil => rw [hp] at hgt; simp at hgt
    | cons p0 rest => simp [fallback_split]
  · cases hp : pySplit (" and ".data) q with
    | nil => rw [hp] at hgt; simp at hgt
    | cons p0 rest => simp [fallback_split]

/-- C2 witness: the amended theorem applied at a concrete separator-bearing
question with an empty model result. -/
theorem c2_amended_witness :
    chat_sub_questions ("a and b".data) (Except.error ()) = [("a and b".data)] ∧
    (chat_sub_questions ("a and b".data) (Except.ok [])).length =
      (pySplit (" and ".data) ("a and b".data)).length ∧
    (chat_sub_questions ("a and b".data) (Except.ok [])).head? =
      ((pySplit (" and ".data) ("a and b".data)).head?).map pyStrip :=
  c2_amended ("a and b".data) [] (Or.inl rfl) (by decide)

/-- C6: in the fallback path, when the first " and " fragment names a
domain keyword, detected case-insensitively in the priority order tiling,
repair, excavation over the first fragment only, and the stripped second
fragment starts with how to without already containing the keyword, the
second returned sub-question is that fragment with the keyword inserted
immediately after how to. -/
theorem c6_domain_insertion (q p0 p1 : PyStr) (res : List PyStr)
    (hres : res = [] ∨ res.length = 1)
    (hsplit : pySplit (" and ".data) q = [p0, p1])
    (hbase : detect_context p0 ≠ [])
    (hhow : ("how to".data).isPrefixOf (pyStrip p1) = true)
    (hnot : pyContains (pyLower (pyStrip p1)) (pyStrip (detect_context p0)) = false) :
    split_question_into_parts q res =
      [pyStrip p0,
       ("how to ".data ++ detect_context p0) ++ (pyStrip p1).drop 6] := by
  rw [split_question_into_parts_degenerate q res hres, hsplit, if_pos (by simp)]
  simp only [fallback_split, List.map_cons, List.map_nil]
  have hrep : repair_part (detect_context p0) p1 =
      ("how to ".data ++ detect_context p0) ++ (pyStrip p1).drop 6 := by
    simp only [repair_part]
    rw [if_pos ⟨hbase, hnot⟩, if_pos hhow,
        pyReplaceFirst_eq_of_isPrefixOf _ _ _ hhow]
    rfl
  rw [hrep]

/-- C6 witness: the theorem applied at a concrete tiling question whose
second fragment starts with how to. -/
theorem c6_domain_insertion_witness :
    split_question_into_parts ("tiling lead setup and how to start".data) [] =
      [("tiling lead setup".data),
       ("how to ".data ++ detect_context ("tiling lead setup".data)) ++
         (pyStrip ("how to start".data)).drop 6] :=
  c6_domain_insertion ("tiling lead setup and how to start".data)
    ("tiling lead setup".data) ("how to start".data) []
    (Or.inl rfl) (by decide) (by decide) (by decide) (by decide)

/-- C7: an exception raised by the decomposition call is caught inside
chat; the whole original question becomes the sole sub-question, which is
answered and normalized as usual, and the exception never propagates out of
chat. -/
theorem c7_decomposer_error_recovered (q : PyStr)
    (synth : PyStr → Except Unit PyStr) (a : PyStr) (ha : synth q = Except.ok a) :
    chat true q (Except.error ()) synth =
      Except.ok [(q, enhance_response_authority a)] := by
  simp [chat, chat_sub_questions, answer_loop, ha]

/-- C7 witness: the theorem applied at a concrete question with a constant
successful synthesizer. -/
theorem c7_decomposer_error_recovered_witness :
    chat true ("hi".data) (Except.error ()) (fun _ => Except.ok ("ans".data)) =
      Except.ok [(("hi".data), enhance_response_authority ("ans".data))] :=
  c7_decomposer_error_recovered ("hi".data)
    (fun _ => Except.ok ("ans".data)) ("ans".data) rfl

/-- C8: when the persisted store directory is missing, chat fails with the
configuration error for every question, every decomposer outcome and every
synthesizer, so no decomposition, retrieval or synthesis work can influence
the outcome. -/
theorem c8_missing_store_fatal (q : PyStr) (model : Except Unit (List PyStr))
    (synth : PyStr → Except Unit PyStr) :
    chat false q model synth = Except.error ChatError.configMissingStore := rfl

/-- C9: enhance_response_authority is not idempotent: on the witness input
the first pass creates a bold marker by removing a bullet marker between
two asterisks, and the second pass then removes that bold marker. -/
theorem c9_not_idempotent :
    ∃ x : PyStr,
      enhance_response_authority (enhance_response_authority x) ≠
        enhance_response_authority x :=
  ⟨"*- *-".data, by decide⟩

/-- C10 counterexample: an input that already begins with a doubled opener
phrase passes through both normalization passes unchanged, so the double
application of enhance_response_authority can begin with two consecutive
occurrences of an opener phrase, refuting the claim as universally
stated. -/
theorem c10_counterexample :
    (to_do_this_opener ++ to_do_this_opener).isPrefixOf
      (enhance_response_authority
        (enhance_response_authority ("To do this: To do this: go now".data))) = true := by
  decide

/-- C10 (amended): each of the three opener phrases begins,
case-insensitively, with a recognized opener of the starter catalog, so the
final rule of enhance_response_authority never fires on a string that
already begins with one of the opener phrases; normalization itself never
stacks a second opener, and a doubled opener can only be present in the
input already. -/
theorem c10_amended (r p : PyStr)
    (hp : p ∈ [to_do_this_opener, steps_opener, heres_how_opener])
    (hpre : p.isPrefixOf r = true) :
    add_opener r = r ∧
    starters.any (fun st => st.isPrefixOf (pyLower p)) = true := by
  simp only [List.mem_cons, List.not_mem_nil, or_false] at hp
  rcases hp with rfl | rfl | rfl
  · exact ⟨add_opener_eq_of_starter_lift ("to".data) to_do_this_opener r
      (by decide) (by decide) hpre, by decide⟩
  · exact ⟨add_opener_eq_of_starter_lift ("steps".data) steps_opener r
      (by decide) (by decide) hpre, by decide⟩
  · exact ⟨add_opener_eq_of_starter_lift ("here".data) heres_how_opener r
      (by decide) (by decide) hpre, by decide⟩

/-- C10 witness: the amended theorem applied at a concrete string that
already carries the action opener phrase. -/
theorem c10_amended_witness :
    add_opener (to_do_this_opener ++ "go".data) = to_do_this_opener ++ "go".data ∧
    starters.any (fun st => st.isPrefixOf (pyLower to_do_this_opener)) = true :=
  c10_amended (to_do_this_opener ++ "go".data) to_do_this_opener
    (by decide) (by decide)

end RAGChatBot
